import Mathlib

/-!
Verification of the Ashtakoota Compatibility Engine of this repository.

The definitions below are a shallow embedding of the Python sources:
  * `app/agents/tools.py`   — reference tables, the eight factor scorers,
    the dosha-cancellation predicates and `compatibility_ashtakoota`;
  * `app/services/compatibility_service.py` — `compute_ashtakoota_raw`
    (role resolution and the friendship fold);
  * `app/routers/users.py`  — `_calculate_max_score` (the 36/32 ceiling).

Python `dict[...]` indexing can raise `KeyError`, so every table lookup is
embedded as an `Option`-valued function and the engine `compatibility_ashtakoota?`
is `Option`-valued, binding lookups in the source's evaluation order.  The
unprimed functions (`varna_score`, `compatibility_ashtakoota`, ...) are the
`getD`-restrictions of the checked ones; every theorem about them carries
the domain hypotheses (sign 1–12, asterism 1–27) under which the two agree.

Animal-affinity (Yoni) classes are kept as the literal strings of the source,
because the spelling of those strings ('Ashwa' vs 'Ashva', ...) is itself the
subject of one of the verified properties.
-/

namespace Ashtakoota

/-- The four caste classes of `RASHI_TO_VARNA` / `VARNA_HIERARCHY`. -/
inductive Varna where
  | Brahmin | Kshatriya | Vaishya | Shudra
deriving DecidableEq, Repr

/-- The five dominance classes of `RASHI_TO_VASHYA` / `VASHYA_COMPATIBLE`. -/
inductive Vashya where
  | Chatushpada | Dwipad | Jalachar | Keeta | Vanachara
deriving DecidableEq, Repr

/-- The seven ruling bodies of `RASHI_LORDS` / `PLANET_RELATIONSHIPS`. -/
inductive Planet where
  | Sun | Moon | Mars | Mercury | Jupiter | Venus | Saturn
deriving DecidableEq, Repr

/-- The three temperament classes of `NAKSHATRA_TO_GANA`. -/
inductive Gana where
  | Deva | Manushya | Rakshasa
deriving DecidableEq, Repr

/-- The three physiology classes of `NAKSHATRA_TO_NADI`. -/
inductive Nadi where
  | Adi | Madhya | Antya
deriving DecidableEq, Repr

/-- `RASHI_TO_VARNA` from `app/agents/tools.py` (keys 1–12; missing key = `none`). -/
def RASHI_TO_VARNA (r : ℕ) : Option Varna :=
  if r = 1 then some .Kshatriya else if r = 2 then some .Vaishya
  else if r = 3 then some .Shudra else if r = 4 then some .Brahmin
  else if r = 5 then some .Kshatriya else if r = 6 then some .Vaishya
  else if r = 7 then some .Shudra else if r = 8 then some .Kshatriya
  else if r = 9 then some .Kshatriya else if r = 10 then some .Vaishya
  else if r = 11 then some .Shudra else if r = 12 then some .Brahmin
  else none

/-- `VARNA_HIERARCHY` from `app/agents/tools.py` (total over the enum). -/
def VARNA_HIERARCHY : Varna → ℕ
  | .Brahmin => 4 | .Kshatriya => 3 | .Vaishya => 2 | .Shudra => 1

/-- `RASHI_TO_VASHYA` from `app/agents/tools.py`. -/
def RASHI_TO_VASHYA (r : ℕ) : Option Vashya :=
  if r = 1 then some .Chatushpada else if r = 2 then some .Chatushpada
  else if r = 3 then some .Dwipad else if r = 4 then some .Jalachar
  else if r = 5 then some .Chatushpada else if r = 6 then some .Dwipad
  else if r = 7 then some .Dwipad else if r = 8 then some .Keeta
  else if r = 9 then some .Dwipad else if r = 10 then some .Jalachar
  else if r = 11 then some .Jalachar else if r = 12 then some .Jalachar
  else none

/-- `VASHYA_COMPATIBLE` from `app/agents/tools.py`: every class maps to the
singleton list holding itself (`.get(v1, [])` never misses on the enum). -/
def VASHYA_COMPATIBLE : Vashya → List Vashya
  | .Chatushpada => [.Chatushpada] | .Dwipad => [.Dwipad]
  | .Jalachar => [.Jalachar] | .Vanachara => [.Vanachara] | .Keeta => [.Keeta]

/-- `VASHYA_SPECIAL` from `app/agents/tools.py` (ordered sign-pair overrides). -/
def VASHYA_SPECIAL (p : ℕ × ℕ) : Option ℚ :=
  if p = (1, 5) then some 2 else if p = (5, 1) then some 2
  else if p = (2, 7) then some 2 else if p = (7, 2) then some 2
  else if p = (3, 6) then some 2 else if p = (6, 3) then some 2
  else if p = (4, 8) then some 1 else if p = (8, 4) then some 1
  else if p = (9, 12) then some 2 else if p = (12, 9) then some 2
  else if p = (10, 11) then some 1 else if p = (11, 10) then some 1
  else none

/-- `NAKSHATRA_TO_YONI` from `app/agents/tools.py`; the class is the literal
string of the source (spellings 'Ashwa', 'Shwan', 'Vanara' included). -/
def NAKSHATRA_TO_YONI (n : ℕ) : Option String :=
  if n = 1 then some "Ashwa" else if n = 2 then some "Gaja"
  else if n = 3 then some "Mesha" else if n = 4 then some "Sarpa"
  else if n = 5 then some "Sarpa" else if n = 6 then some "Shwan"
  else if n = 7 then some "Marjara" else if n = 8 then some "Mesha"
  else if n = 9 then some "Marjara" else if n = 10 then some "Mushaka"
  else if n = 11 then some "Mushaka" else if n = 12 then some "Gau"
  else if n = 13 then some "Mahisha" else if n = 14 then some "Vyaghra"
  else if n = 15 then some "Mahisha" else if n = 16 then some "Vyaghra"
  else if n = 17 then some "Mriga" else if n = 18 then some "Mriga"
  else if n = 19 then some "Shwan" else if n = 20 then some "Vanara"
  else if n = 21 then some "Nakula" else if n = 22 then some "Vanara"
  else if n = 23 then some "Simha" else if n = 24 then some "Ashwa"
  else if n = 25 then some "Simha" else if n = 26 then some "Gau"
  else if n = 27 then some "Gaja"
  else none

/-- The distinct values of `NAKSHATRA_TO_YONI` — the key set over which the
Python loop builds `YONI_COMPATIBILITY`. -/
def mappedYonis : List String :=
  ["Ashwa", "Gaja", "Mesha", "Sarpa", "Shwan", "Marjara", "Mushaka",
   "Gau", "Mahisha", "Vyaghra", "Mriga", "Vanara", "Nakula", "Simha"]

/-- `FRIENDLY_PAIRS` from `app/agents/tools.py` (note the spellings
'Ashva', 'Shvana', 'Vana' — distinct strings from the mapping's). -/
def FRIENDLY_PAIRS : List (String × String) :=
  [("Ashva", "Sarpa"), ("Ashva", "Mriga"), ("Ashva", "Vana"),
   ("Gaja", "Mesha"), ("Gaja", "Mahisha"), ("Gaja", "Vana"),
   ("Mesha", "Gau"), ("Mesha", "Mahisha"),
   ("Sarpa", "Gaja"), ("Sarpa", "Ashva"),
   ("Shvana", "Vana"),
   ("Marjara", "Mriga"), ("Marjara", "Simha"),
   ("Nakula", "Matsya"),
   ("Mushaka", "Marjara"),
   ("Gau", "Mesha"), ("Gau", "Vyaghra"),
   ("Mahisha", "Gaja"), ("Mahisha", "Mesha"),
   ("Vyaghra", "Gau"),
   ("Mriga", "Ashva"), ("Mriga", "Marjara"),
   ("Vana", "Ashva"), ("Vana", "Gaja"), ("Vana", "Shvana"),
   ("Simha", "Marjara"),
   ("Matsya", "Nakula")]

/-- `ENEMY_PAIRS` from `app/agents/tools.py`. -/
def ENEMY_PAIRS : List (String × String) :=
  [("Ashva", "Mahisha"), ("Gaja", "Simha"), ("Mesha", "Vana"), ("Sarpa", "Nakula"),
   ("Shvana", "Mriga"), ("Marjara", "Mushaka"), ("Nakula", "Sarpa"),
   ("Gau", "Vyaghra"), ("Mahisha", "Ashva"), ("Vyaghra", "Gau"),
   ("Mriga", "Shvana"), ("Vana", "Mesha"), ("Simha", "Gaja"), ("Mushaka", "Marjara")]

/-- `HIGHLY_INIMICAL_PAIRS` from `app/agents/tools.py`. -/
def HIGHLY_INIMICAL_PAIRS : List (String × String) :=
  [("Ashva", "Mahisha"), ("Mahisha", "Ashva"),
   ("Gaja", "Simha"), ("Simha", "Gaja"),
   ("Mesha", "Vana"), ("Vana", "Mesha"),
   ("Nakula", "Sarpa"), ("Sarpa", "Nakula"),
   ("Mriga", "Shvana"), ("Shvana", "Mriga"),
   ("Marjara", "Mushaka"), ("Mushaka", "Marjara"),
   ("Gau", "Vyaghra"), ("Vyaghra", "Gau")]

/-- The value assigned to key `(y1, y2)` by the Python loop that builds
`YONI_COMPATIBILITY` (the if/elif cascade of the loop body, verbatim). -/
def yoniMatrixVal (y1 y2 : String) : ℚ :=
  if y1 = y2 then 4
  else if (y1, y2) ∈ HIGHLY_INIMICAL_PAIRS then 0
  else if (y1, y2) ∈ FRIENDLY_PAIRS ∨ (y2, y1) ∈ FRIENDLY_PAIRS then 3
  else if (y1, y2) ∈ ENEMY_PAIRS ∨ (y2, y1) ∈ ENEMY_PAIRS then 1
  else 2

/-- `YONI_COMPATIBILITY` as a partial map: the Python dict holds exactly the
keys in `mappedYonis × mappedYonis`. -/
def YONI_COMPATIBILITY (y1 y2 : String) : Option ℚ :=
  if y1 ∈ mappedYonis ∧ y2 ∈ mappedYonis then some (yoniMatrixVal y1 y2) else none

/-- `RASHI_LORDS` from `app/agents/tools.py`. -/
def RASHI_LORDS (r : ℕ) : Option Planet :=
  if r = 1 then some .Mars else if r = 2 then some .Venus
  else if r = 3 then some .Mercury else if r = 4 then some .Moon
  else if r = 5 then some .Sun else if r = 6 then some .Mercury
  else if r = 7 then some .Venus else if r = 8 then some .Mars
  else if r = 9 then some .Jupiter else if r = 10 then some .Saturn
  else if r = 11 then some .Saturn else if r = 12 then some .Jupiter
  else none

/-- The `friends` lists of `PLANET_RELATIONSHIPS`. -/
def planetFriends : Planet → List Planet
  | .Sun => [.Moon, .Mars, .Jupiter]
  | .Moon => [.Sun, .Mercury]
  | .Mars => [.Sun, .Moon, .Jupiter]
  | .Mercury => [.Sun, .Venus]
  | .Jupiter => [.Sun, .Moon, .Mars]
  | .Venus => [.Mercury, .Saturn]
  | .Saturn => [.Mercury, .Venus]

/-- The `enemies` lists of `PLANET_RELATIONSHIPS`. -/
def planetEnemies : Planet → List Planet
  | .Sun => [.Venus, .Saturn]
  | .Moon => []
  | .Mars => [.Mercury]
  | .Mercury => [.Moon]
  | .Jupiter => [.Mercury, .Venus]
  | .Venus => [.Sun, .Moon]
  | .Saturn => [.Sun, .Moon, .Mars]

/-- The `neutral` lists of `PLANET_RELATIONSHIPS`. -/
def planetNeutral : Planet → List Planet
  | .Sun => [.Mercury]
  | .Moon => [.Mars, .Jupiter, .Venus, .Saturn]
  | .Mars => [.Venus, .Saturn]
  | .Mercury => [.Mars, .Jupiter, .Saturn]
  | .Jupiter => [.Saturn]
  | .Venus => [.Mars, .Jupiter]
  | .Saturn => [.Jupiter]

/-- `NAKSHATRA_TO_GANA` from `app/agents/tools.py`. -/
def NAKSHATRA_TO_GANA (n : ℕ) : Option Gana :=
  if n = 1 then some .Deva else if n = 2 then some .Manushya
  else if n = 3 then some .Rakshasa else if n = 4 then some .Manushya
  else if n = 5 then some .Deva else if n = 6 then some .Manushya
  else if n = 7 then some .Deva else if n = 8 then some .Deva
  else if n = 9 then some .Rakshasa else if n = 10 then some .Rakshasa
  else if n = 11 then some .Manushya else if n = 12 then some .Manushya
  else if n = 13 then some .Deva else if n = 14 then some .Rakshasa
  else if n = 15 then some .Deva else if n = 16 then some .Rakshasa
  else if n = 17 then some .Deva else if n = 18 then some .Rakshasa
  else if n = 19 then some .Rakshasa else if n = 20 then some .Manushya
  else if n = 21 then some .Manushya else if n = 22 then some .Deva
  else if n = 23 then some .Rakshasa else if n = 24 then some .Rakshasa
  else if n = 25 then some .Manushya else if n = 26 then some .Manushya
  else if n = 27 then some .Deva
  else none

/-- The 12×12 `BHAKOOT_MATRIX` of `app/agents/tools.py`, row `r` (sign of the
first argument) listing the values at `(r, 1) ... (r, 12)`. -/
def BHAKOOT_ROWS : List (List ℚ) :=
  [[7, 0, 7, 7, 0, 0, 7, 0, 0, 7, 7, 0],
   [0, 7, 0, 7, 7, 0, 0, 7, 0, 0, 7, 7],
   [7, 0, 7, 0, 7, 7, 0, 0, 7, 0, 0, 7],
   [7, 7, 0, 7, 0, 7, 7, 0, 0, 7, 0, 0],
   [0, 7, 7, 0, 7, 0, 7, 7, 0, 0, 7, 0],
   [0, 0, 7, 7, 0, 7, 0, 7, 7, 0, 0, 7],
   [7, 0, 0, 7, 7, 0, 7, 0, 7, 7, 0, 0],
   [0, 7, 0, 0, 7, 7, 0, 7, 0, 7, 7, 0],
   [0, 0, 7, 0, 0, 7, 7, 0, 7, 0, 7, 7],
   [7, 0, 0, 7, 0, 0, 7, 7, 0, 7, 0, 7],
   [7, 7, 0, 0, 7, 0, 0, 7, 7, 0, 7, 0],
   [0, 7, 7, 0, 0, 7, 0, 0, 7, 7, 0, 7]]

/-- `BHAKOOT_MATRIX` as a partial map on ordered sign pairs (keys 1–12 × 1–12). -/
def BHAKOOT_MATRIX (r1 r2 : ℕ) : Option ℚ :=
  if 1 ≤ r1 ∧ r1 ≤ 12 ∧ 1 ≤ r2 ∧ r2 ≤ 12 then
    some ((BHAKOOT_ROWS.getD (r1 - 1) []).getD (r2 - 1) 0)
  else none

/-- `NAKSHATRA_TO_NADI` from `app/agents/tools.py`. -/
def NAKSHATRA_TO_NADI (n : ℕ) : Option Nadi :=
  if n = 1 then some .Adi else if n = 2 then some .Madhya
  else if n = 3 then some .Antya else if n = 4 then some .Adi
  else if n = 5 then some .Madhya else if n = 6 then some .Antya
  else if n = 7 then some .Adi else if n = 8 then some .Madhya
  else if n = 9 then some .Antya else if n = 10 then some .Adi
  else if n = 11 then some .Madhya else if n = 12 then some .Antya
  else if n = 13 then some .Adi else if n = 14 then some .Madhya
  else if n = 15 then some .Antya else if n = 16 then some .Adi
  else if n = 17 then some .Madhya else if n = 18 then some .Antya
  else if n = 19 then some .Adi else if n = 20 then some .Madhya
  else if n = 21 then some .Antya else if n = 22 then some .Adi
  else if n = 23 then some .Madhya else if n = 24 then some .Antya
  else if n = 25 then some .Adi else if n = 26 then some .Madhya
  else if n = 27 then some .Antya
  else none

/-- `varna_score` inside `compatibility_ashtakoota` (checked lookups). -/
def varna_score? (r1 r2 : ℕ) : Option ℚ := do
  let v1 ← RASHI_TO_VARNA r1
  let v2 ← RASHI_TO_VARNA r2
  pure (if v1 = v2 ∨ VARNA_HIERARCHY v1 ≥ VARNA_HIERARCHY v2 then 1 else 0)

/-- `vashya_score` inside `compatibility_ashtakoota`: the special table is
consulted first, exactly as the `if (r1, r2) in VASHYA_SPECIAL` guard does. -/
def vashya_score? (r1 r2 : ℕ) : Option ℚ :=
  match VASHYA_SPECIAL (r1, r2) with
  | some v => some v
  | none => do
      let v1 ← RASHI_TO_VASHYA r1
      let v2 ← RASHI_TO_VASHYA r2
      pure (if v1 = v2 ∨ v2 ∈ VASHYA_COMPATIBLE v1 then 2 else 1)

/-- `tara_score` inside `compatibility_ashtakoota`: pure modular arithmetic
(Python `%` on possibly-negative operands is `Int.emod` here), no lookups. -/
def tara_score (boy_nakshatra girl_nakshatra : ℕ) : ℚ :=
  let d1 : ℤ := ((boy_nakshatra : ℤ) - (girl_nakshatra : ℤ)) % 27
  let d1 : ℤ := if d1 = 0 then 27 else d1
  let rem1 : ℤ := d1 % 9
  let rem1 : ℤ := if rem1 = 0 then 9 else rem1
  let d2 : ℤ := ((girl_nakshatra : ℤ) - (boy_nakshatra : ℤ)) % 27
  let d2 : ℤ := if d2 = 0 then 27 else d2
  let rem2 : ℤ := d2 % 9
  let rem2 : ℤ := if rem2 = 0 then 9 else rem2
  let even1 := rem1 ∈ ([2, 4, 6, 8, 9] : List ℤ)
  let even2 := rem2 ∈ ([2, 4, 6, 8, 9] : List ℤ)
  if even1 ∧ even2 then 3 else if even1 ∨ even2 then 3 / 2 else 0

/-- `yoni_score` inside `compatibility_ashtakoota`: the matrix is total on the
mapped classes, so the `(y2, y1)` retry and final `return 2` of the source are
unreachable but kept. -/
def yoni_score? (n1 n2 : ℕ) : Option ℚ := do
  let y1 ← NAKSHATRA_TO_YONI n1
  let y2 ← NAKSHATRA_TO_YONI n2
  match YONI_COMPATIBILITY y1 y2 with
  | some v => pure v
  | none =>
    match YONI_COMPATIBILITY y2 y1 with
    | some v => pure v
    | none => pure 2

/-- `maitri_score` inside `compatibility_ashtakoota`. -/
def maitri_score? (r1 r2 : ℕ) : Option ℚ := do
  let lord1 ← RASHI_LORDS r1
  let lord2 ← RASHI_LORDS r2
  pure (if lord1 = lord2 then 5
        else if lord2 ∈ planetFriends lord1 then 4
        else if lord2 ∈ planetNeutral lord1 then 3
        else if lord2 ∈ planetEnemies lord1 then 1
        else 0)

/-- The `scoring_table` of `gana_score` (all nine ordered pairs present, so the
`.get(..., 0)` default of the source is unreachable). -/
def ganaScoringTable : Gana → Gana → ℚ
  | .Deva, .Deva => 6
  | .Deva, .Manushya => 6
  | .Deva, .Rakshasa => 0
  | .Manushya, .Deva => 5
  | .Manushya, .Manushya => 6
  | .Manushya, .Rakshasa => 1
  | .Rakshasa, .Deva => 1
  | .Rakshasa, .Manushya => 0
  | .Rakshasa, .Rakshasa => 6

/-- `gana_score` inside `compatibility_ashtakoota`.  NOTE the source's argument
order: `def gana_score(girl_nakshatra, boy_nakshatra)` — the girl's (secondary)
temperament is the FIRST coordinate of the table. -/
def gana_score? (girl_nakshatra boy_nakshatra : ℕ) : Option ℚ := do
  let g1 ← NAKSHATRA_TO_GANA girl_nakshatra
  let g2 ← NAKSHATRA_TO_GANA boy_nakshatra
  pure (ganaScoringTable g1 g2)

/-- `bhakoot_score` inside `compatibility_ashtakoota`: the single scorer using
`.get((r1, r2), 0)`, i.e. a silent 0 default on a missing sign pair. -/
def bhakoot_score (r1 r2 : ℕ) : ℚ :=
  (BHAKOOT_MATRIX r1 r2).getD 0

/-- `nadi_score` inside `compatibility_ashtakoota`. -/
def nadi_score? (n1 n2 : ℕ) : Option ℚ := do
  let nadi1 ← NAKSHATRA_TO_NADI n1
  let nadi2 ← NAKSHATRA_TO_NADI n2
  pure (if nadi1 ≠ nadi2 then 8 else 0)

/-- `nadi_dosha_cancel` inside `compatibility_ashtakoota`, verbatim. -/
def nadi_dosha_cancel (r1 n1 r2 n2 : ℕ) : Bool :=
  (r1 == r2 && n1 != n2) || (n1 == n2 && r1 != r2) || (n1 == n2 && r1 == r2)

/-- `bhakoot_dosha_cancel` inside `compatibility_ashtakoota`. -/
def bhakoot_dosha_cancel (r1 r2 : ℕ) : Bool :=
  r1 == r2

/-- The eight entries of the `scores` dict, in the source's key order. -/
structure Scores where
  varna : ℚ
  vashya : ℚ
  tara : ℚ
  yoni : ℚ
  maitri : ℚ
  gana : ℚ
  bhakoot : ℚ
  nadi : ℚ
deriving DecidableEq, Repr, Inhabited

/-- Sum of the eight scores (`sum(scores.values())`). -/
def Scores.total (s : Scores) : ℚ :=
  s.varna + s.vashya + s.tara + s.yoni + s.maitri + s.gana + s.bhakoot + s.nadi

/-- The `explanation` dict of the result. -/
structure Explanation where
  varna : String
  vashya : String
  tara : String
  yoni : String
  maitri : String
  gana : String
  bhakoot : String
  nadi : String
deriving DecidableEq, Repr, Inhabited

/-- The `explanation` dict literal returned by `compatibility_ashtakoota`. -/
def baseExplanation : Explanation where
  varna := "Varna (Personality): Based on Moon sign caste classification."
  vashya := "Vashya (Dominance/Mutual Influence): Based on Rashi mutual influence."
  tara := "Tara (Health): Based on Nakshatra distance."
  yoni := "Yoni (Sexual): Based on Nakshatra yoni animal compatibility."
  maitri := "Maitri (Friendship): Based on Moon lord friendship."
  gana := "Gana (Temperament): Based on Nakshatra gana type."
  bhakoot := "Bhakoot (Emotional): Based on Moon sign distance matrix."
  nadi := "Nadi (Future Generation): Based on Nakshatra nadi type."

/-- The `dosha_cancellation` dict of the result. -/
structure DoshaCancellation where
  nadi : Bool
  bhakoot : Bool
deriving DecidableEq, Repr, Inhabited

/-- The dict returned by `compatibility_ashtakoota`. -/
structure AKResult where
  scores : Scores
  total : ℚ
  explanation : Explanation
  dosha_cancellation : DoshaCancellation
deriving DecidableEq, Repr, Inhabited

/-- `compatibility_ashtakoota` from `app/agents/tools.py` with checked table
lookups, bound in the evaluation order of the source's `scores` dict literal
(a `none` is the `KeyError` the corresponding Python lookup would raise).
`boy_pada` and `girl_pada` are accepted and never consulted, as in the source. -/
def compatibility_ashtakoota? (boy_rashi boy_nakshatra boy_pada girl_rashi
    girl_nakshatra girl_pada : ℕ) : Option AKResult := do
  let varna ← varna_score? boy_rashi girl_rashi
  let vashya ← vashya_score? boy_rashi girl_rashi
  let tara := tara_score boy_nakshatra girl_nakshatra
  let yoni ← yoni_score? boy_nakshatra girl_nakshatra
  let maitri ← maitri_score? boy_rashi girl_rashi
  let gana ← gana_score? girl_nakshatra boy_nakshatra
  let bhakoot := bhakoot_score boy_rashi girl_rashi
  let nadi ← nadi_score? boy_nakshatra girl_nakshatra
  let scores : Scores :=
    ⟨varna, vashya, tara, yoni, maitri, gana, bhakoot, nadi⟩
  pure { scores := scores
         total := scores.total
         explanation := baseExplanation
         dosha_cancellation :=
           ⟨nadi_dosha_cancel boy_rashi boy_nakshatra girl_rashi girl_nakshatra,
            bhakoot_dosha_cancel boy_rashi girl_rashi⟩ }

/-- `compatibility_ashtakoota` restricted to inputs on which every lookup
succeeds (all theorems about it carry the 1–12 / 1–27 domain hypotheses). -/
def compatibility_ashtakoota (boy_rashi boy_nakshatra boy_pada girl_rashi
    girl_nakshatra girl_pada : ℕ) : AKResult :=
  (compatibility_ashtakoota? boy_rashi boy_nakshatra boy_pada girl_rashi
    girl_nakshatra girl_pada).getD default

/-- Total restriction of `varna_score?`. -/
def varna_score (r1 r2 : ℕ) : ℚ := (varna_score? r1 r2).getD 0

/-- Total restriction of `vashya_score?`. -/
def vashya_score (r1 r2 : ℕ) : ℚ := (vashya_score? r1 r2).getD 0

/-- Total restriction of `yoni_score?`. -/
def yoni_score (n1 n2 : ℕ) : ℚ := (yoni_score? n1 n2).getD 0

/-- Total restriction of `maitri_score?`. -/
def maitri_score (r1 r2 : ℕ) : ℚ := (maitri_score? r1 r2).getD 0

/-- Total restriction of `gana_score?` (first argument the girl's asterism). -/
def gana_score (girl_nakshatra boy_nakshatra : ℕ) : ℚ :=
  (gana_score? girl_nakshatra boy_nakshatra).getD 0

/-- Total restriction of `nadi_score?`. -/
def nadi_score (n1 n2 : ℕ) : ℚ := (nadi_score? n1 n2).getD 0

/-- Valid lunar sign (domain of the 1–12 keyed tables). -/
def validR (r : ℕ) : Prop := 1 ≤ r ∧ r ≤ 12

/-- Valid lunar asterism (domain of the 1–27 keyed tables). -/
def validN (n : ℕ) : Prop := 1 ≤ n ∧ n ≤ 27

instance (r : ℕ) : Decidable (validR r) := by unfold validR; infer_instance

instance (n : ℕ) : Decidable (validN n) := by unfold validN; infer_instance

/-- The triple returned by the ephemeris collaborator (`get_panchanga`), as
consumed by `compute_ashtakoota_raw`:  `moon_rashi`, `nakshatra`, `pada`. -/
structure Panchanga where
  moon_rashi : ℕ
  nakshatra : ℕ
  pada : ℕ
deriving DecidableEq, Repr, Inhabited

/-- The two compatibility types that pass the guard at the top of
`compute_ashtakoota_raw` (any other string returns `None` before scoring). -/
inductive CompatibilityType where
  | love | friendship
deriving DecidableEq, Repr, Inhabited, BEq

/-- `run_ak` inside `compute_ashtakoota_raw`: score with the first profile in
the boy (primary) slot and the second in the girl (secondary) slot. -/
def run_ak (b g : Panchanga) : AKResult :=
  compatibility_ashtakoota b.moon_rashi b.nakshatra b.pada
    g.moon_rashi g.nakshatra g.pada

/-- The `hetero_love` predicate of `compute_ashtakoota_raw` (lines 71–76):
type is love, both genders are one of the strings 'male'/'female', and they
differ.  Genders are `Option String`, `none` being Python `None`. -/
def hetero_love (compatibility_type : CompatibilityType)
    (user_gender other_gender : Option String) : Bool :=
  compatibility_type == .love
    && (user_gender == some "male" || user_gender == some "female")
    && (other_gender == some "male" || other_gender == some "female")
    && user_gender != other_gender

/-- The orientation choice of `compute_ashtakoota_raw` (lines 78–98): the
deterministic male-primary branch for heterosexual love, otherwise both
orientations are scored and `a_first` is kept iff its total is ≥ `a_swap`'s. -/
def resolve_orientation (user other : Panchanga)
    (user_gender other_gender : Option String)
    (compatibility_type : CompatibilityType) : AKResult :=
  if hetero_love compatibility_type user_gender other_gender then
    if user_gender == some "male" then run_ak user other else run_ak other user
  else
    let a_first := run_ak user other
    let a_swap := run_ak other user
    if a_first.total ≥ a_swap.total then a_first else a_swap

/-- The friendship transform of `compute_ashtakoota_raw` (lines 100–111):
Bhakoot absorbs Yoni capped at 7, Yoni drops to 0, three explanation strings
are replaced, and the total is recomputed from the mutated scores. -/
def friendship_fold (ak : AKResult) : AKResult :=
  let yoni_score := ak.scores.yoni
  let bhakoot_score := ak.scores.bhakoot
  let scores' : Scores :=
    { ak.scores with bhakoot := min 7 (bhakoot_score + yoni_score), yoni := 0 }
  { ak with
    scores := scores'
    explanation :=
      { ak.explanation with
        yoni := "Not applicable for friendship. Yoni folded under emotional closeness."
        bhakoot := "Bhakoot (Emotional): Includes Yoni-derived closeness for friendship."
        vashya := "Vashya (Mutual Influence): Based on Rashi mutual influence for friendship compatibility." }
    total := scores'.total }

/-- The scoring core of `compute_ashtakoota_raw` from
`app/services/compatibility_service.py`: orientation resolution followed by
the friendship fold when the type is friendship.  (The geocoding/ephemeris
preamble and its `None` early returns are external I/O and are not modelled.) -/
def compute_ashtakoota_raw (user other : Panchanga)
    (user_gender other_gender : Option String)
    (compatibility_type : CompatibilityType) : AKResult :=
  let ak := resolve_orientation user other user_gender other_gender compatibility_type
  if compatibility_type == .friendship then friendship_fold ak else ak

/-- `_calculate_max_score` from `app/routers/users.py`: the achievable ceiling
attached to an analysis — 36 minus Yoni's 4 for friendship, 36 for love. -/
def calculate_max_score (compatibility_type : CompatibilityType) : ℕ :=
  match compatibility_type with
  | .friendship => 36 - 4
  | .love => 36

/-- The eight factor scores of `compatibility_ashtakoota` on valid input, as a
tuple of the (total restrictions of the) individual scorers; note Gana's
girl-first argument order. -/
def mkScores (br bn gr gn : ℕ) : Scores :=
  ⟨varna_score br gr, vashya_score br gr, tara_score bn gn, yoni_score bn gn,
   maitri_score br gr, gana_score gn bn, bhakoot_score br gr, nadi_score bn gn⟩

/-- The Tara rule as worded in the spec (§4.1), for refinement comparison with
`tara_score`: forward step count `d1 = (primary − secondary) mod 27` with 0
treated as 27, `rem1 = d1 mod 9` with 0 treated as 9, the reverse direction
symmetrically; a remainder is favorable iff it is one of 2, 4, 6, 8, 9; score
3 if both favorable, 1.5 if exactly one, 0 if neither. -/
def tara_spec (primary secondary : ℕ) : ℚ :=
  let d1 : ℤ := ((primary : ℤ) - (secondary : ℤ)) % 27
  let d1 : ℤ := if d1 = 0 then 27 else d1
  let rem1 : ℤ := d1 % 9
  let rem1 : ℤ := if rem1 = 0 then 9 else rem1
  let d2 : ℤ := ((secondary : ℤ) - (primary : ℤ)) % 27
  let d2 : ℤ := if d2 = 0 then 27 else d2
  let rem2 : ℤ := d2 % 9
  let rem2 : ℤ := if rem2 = 0 then 9 else rem2
  let fav1 := rem1 = 2 ∨ rem1 = 4 ∨ rem1 = 6 ∨ rem1 = 8 ∨ rem1 = 9
  let fav2 := rem2 = 2 ∨ rem2 = 4 ∨ rem2 = 6 ∨ rem2 = 8 ∨ rem2 = 9
  if fav1 ∧ fav2 then 3 else if fav1 ∨ fav2 then 3 / 2 else 0

/-! ### Infrastructure lemmas

Batteries marks the `Rat` arithmetic operations `@[irreducible]`; they are
unsealed here so that `decide` can evaluate scores and totals. -/

unseal Rat.add Rat.mul Rat.inv Rat.sub

/-- An `Option` known to be `some` equals `some` of any of its `getD` reads. -/
lemma getD_of_isSome {α : Type} (o : Option α) (d : α) (h : o.isSome) :
    o = some (o.getD d) := by
  cases o with
  | none => simp at h
  | some a => rfl

lemma varna_score?_isSome : ∀ r1 < 13, ∀ r2 < 13, 1 ≤ r1 → 1 ≤ r2 →
    (varna_score? r1 r2).isSome := by decide

lemma vashya_score?_isSome : ∀ r1 < 13, ∀ r2 < 13, 1 ≤ r1 → 1 ≤ r2 →
    (vashya_score? r1 r2).isSome := by decide

lemma yoni_score?_isSome : ∀ n1 < 28, ∀ n2 < 28, 1 ≤ n1 → 1 ≤ n2 →
    (yoni_score? n1 n2).isSome := by decide

lemma maitri_score?_isSome : ∀ r1 < 13, ∀ r2 < 13, 1 ≤ r1 → 1 ≤ r2 →
    (maitri_score? r1 r2).isSome := by decide

lemma gana_score?_isSome : ∀ n1 < 28, ∀ n2 < 28, 1 ≤ n1 → 1 ≤ n2 →
    (gana_score? n1 n2).isSome := by decide

lemma nadi_score?_isSome : ∀ n1 < 28, ∀ n2 < 28, 1 ≤ n1 → 1 ≤ n2 →
    (nadi_score? n1 n2).isSome := by decide

lemma varna_score?_eq {r1 r2 : ℕ} (h1 : validR r1) (h2 : validR r2) :
    varna_score? r1 r2 = some (varna_score r1 r2) := by
  obtain ⟨a1, b1⟩ := h1; obtain ⟨a2, b2⟩ := h2
  exact getD_of_isSome _ 0 (varna_score?_isSome r1 (by omega) r2 (by omega) a1 a2)

lemma vashya_score?_eq {r1 r2 : ℕ} (h1 : validR r1) (h2 : validR r2) :
    vashya_score? r1 r2 = some (vashya_score r1 r2) := by
  obtain ⟨a1, b1⟩ := h1; obtain ⟨a2, b2⟩ := h2
  exact getD_of_isSome _ 0 (vashya_score?_isSome r1 (by omega) r2 (by omega) a1 a2)

lemma yoni_score?_eq {n1 n2 : ℕ} (h1 : validN n1) (h2 : validN n2) :
    yoni_score? n1 n2 = some (yoni_score n1 n2) := by
  obtain ⟨a1, b1⟩ := h1; obtain ⟨a2, b2⟩ := h2
  exact getD_of_isSome _ 0 (yoni_score?_isSome n1 (by omega) n2 (by omega) a1 a2)

lemma maitri_score?_eq {r1 r2 : ℕ} (h1 : validR r1) (h2 : validR r2) :
    maitri_score? r1 r2 = some (maitri_score r1 r2) := by
  obtain ⟨a1, b1⟩ := h1; obtain ⟨a2, b2⟩ := h2
  exact getD_of_isSome _ 0 (maitri_score?_isSome r1 (by omega) r2 (by omega) a1 a2)

lemma gana_score?_eq {n1 n2 : ℕ} (h1 : validN n1) (h2 : validN n2) :
    gana_score? n1 n2 = some (gana_score n1 n2) := by
  obtain ⟨a1, b1⟩ := h1; obtain ⟨a2, b2⟩ := h2
  exact getD_of_isSome _ 0 (gana_score?_isSome n1 (by omega) n2 (by omega) a1 a2)

lemma nadi_score?_eq {n1 n2 : ℕ} (h1 : validN n1) (h2 : validN n2) :
    nadi_score? n1 n2 = some (nadi_score n1 n2) := by
  obtain ⟨a1, b1⟩ := h1; obtain ⟨a2, b2⟩ := h2
  exact getD_of_isSome _ 0 (nadi_score?_isSome n1 (by omega) n2 (by omega) a1 a2)

/-- On valid input every lookup succeeds, and the checked engine returns the
record built from the eight scorers and the two cancellation predicates. -/
lemma compatibility_ashtakoota?_eq_some {br bn gr gn : ℕ} (bp gp : ℕ)
    (hbr : validR br) (hbn : validN bn) (hgr : validR gr) (hgn : validN gn) :
    compatibility_ashtakoota? br bn bp gr gn gp =
      some { scores := mkScores br bn gr gn
             total := (mkScores br bn gr gn).total
             explanation := baseExplanation
             dosha_cancellation :=
               ⟨nadi_dosha_cancel br bn gr gn, bhakoot_dosha_cancel br gr⟩ } := by
  unfold compatibility_ashtakoota?
  rw [varna_score?_eq hbr hgr, vashya_score?_eq hbr hgr, yoni_score?_eq hbn hgn,
      maitri_score?_eq hbr hgr, gana_score?_eq hgn hbn, nadi_score?_eq hbn hgn]
  rfl

/-- `compatibility_ashtakoota_eq`: the valid-domain engine in closed form. -/
lemma compatibility_ashtakoota_eq {br bn gr gn : ℕ} (bp gp : ℕ)
    (hbr : validR br) (hbn : validN bn) (hgr : validR gr) (hgn : validN gn) :
    compatibility_ashtakoota br bn bp gr gn gp =
      { scores := mkScores br bn gr gn
        total := (mkScores br bn gr gn).total
        explanation := baseExplanation
        dosha_cancellation :=
          ⟨nadi_dosha_cancel br bn gr gn, bhakoot_dosha_cancel br gr⟩ } := by
  unfold compatibility_ashtakoota
  rw [compatibility_ashtakoota?_eq_some bp gp hbr hbn hgr hgn]
  rfl

/-! ### Per-factor range, symmetry and diagonal lemmas (finite enumeration) -/

set_option synthInstance.maxSize 2000

lemma varna_range : ∀ r1 < 13, ∀ r2 < 13, 1 ≤ r1 → 1 ≤ r2 →
    varna_score r1 r2 = 0 ∨ varna_score r1 r2 = 1 := by decide

lemma vashya_range : ∀ r1 < 13, ∀ r2 < 13, 1 ≤ r1 → 1 ≤ r2 →
    vashya_score r1 r2 = 1 ∨ vashya_score r1 r2 = 2 := by decide

lemma tara_range : ∀ n1 < 28, ∀ n2 < 28,
    tara_score n1 n2 = 0 ∨ tara_score n1 n2 = 3 / 2 ∨ tara_score n1 n2 = 3 := by
  decide

lemma yoni_range : ∀ n1 < 28, ∀ n2 < 28, 1 ≤ n1 → 1 ≤ n2 →
    yoni_score n1 n2 = 0 ∨ yoni_score n1 n2 = 1 ∨ yoni_score n1 n2 = 2 ∨
      yoni_score n1 n2 = 3 ∨ yoni_score n1 n2 = 4 := by decide

lemma maitri_range : ∀ r1 < 13, ∀ r2 < 13, 1 ≤ r1 → 1 ≤ r2 →
    maitri_score r1 r2 = 0 ∨ maitri_score r1 r2 = 1 ∨ maitri_score r1 r2 = 3 ∨
      maitri_score r1 r2 = 4 ∨ maitri_score r1 r2 = 5 := by decide

lemma gana_range : ∀ n1 < 28, ∀ n2 < 28, 1 ≤ n1 → 1 ≤ n2 →
    gana_score n1 n2 = 0 ∨ gana_score n1 n2 = 1 ∨ gana_score n1 n2 = 5 ∨
      gana_score n1 n2 = 6 := by decide

lemma bhakoot_range : ∀ r1 < 13, ∀ r2 < 13, 1 ≤ r1 → 1 ≤ r2 →
    bhakoot_score r1 r2 = 0 ∨ bhakoot_score r1 r2 = 7 := by decide

lemma nadi_range : ∀ n1 < 28, ∀ n2 < 28, 1 ≤ n1 → 1 ≤ n2 →
    nadi_score n1 n2 = 0 ∨ nadi_score n1 n2 = 8 := by decide

lemma vashya_symm : ∀ r1 < 13, ∀ r2 < 13, 1 ≤ r1 → 1 ≤ r2 →
    vashya_score r1 r2 = vashya_score r2 r1 := by decide

lemma tara_symm : ∀ n1 < 28, ∀ n2 < 28,
    tara_score n1 n2 = tara_score n2 n1 := by decide

lemma yoni_symm : ∀ n1 < 28, ∀ n2 < 28, 1 ≤ n1 → 1 ≤ n2 →
    yoni_score n1 n2 = yoni_score n2 n1 := by decide

lemma bhakoot_symm : ∀ r1 < 13, ∀ r2 < 13, 1 ≤ r1 → 1 ≤ r2 →
    bhakoot_score r1 r2 = bhakoot_score r2 r1 := by decide

lemma nadi_symm : ∀ n1 < 28, ∀ n2 < 28, 1 ≤ n1 → 1 ≤ n2 →
    nadi_score n1 n2 = nadi_score n2 n1 := by decide

lemma varna_diag : ∀ r < 13, 1 ≤ r → varna_score r r = 1 := by decide

lemma vashya_diag : ∀ r < 13, 1 ≤ r → vashya_score r r = 2 := by decide

lemma tara_diag : ∀ n < 28, 1 ≤ n → tara_score n n = 3 := by decide

lemma yoni_diag : ∀ n < 28, 1 ≤ n → yoni_score n n = 4 := by decide

lemma maitri_diag : ∀ r < 13, 1 ≤ r → maitri_score r r = 5 := by decide

lemma gana_diag : ∀ n < 28, 1 ≤ n → gana_score n n = 6 := by decide

lemma bhakoot_diag : ∀ r < 13, 1 ≤ r → bhakoot_score r r = 7 := by decide

lemma nadi_diag : ∀ n < 28, 1 ≤ n → nadi_score n n = 0 := by decide

/-- The resolved orientation is always one of the two `run_ak` evaluations. -/
lemma resolve_orientation_cases (u o : Panchanga) (ug og : Option String)
    (ct : CompatibilityType) :
    resolve_orientation u o ug og ct = run_ak u o ∨
      resolve_orientation u o ug og ct = run_ak o u := by
  unfold resolve_orientation
  dsimp only
  split_ifs <;> first | (left; rfl) | (right; rfl)

/-- A sign outside 1–12 misses every key of `RASHI_TO_VARNA`. -/
lemma RASHI_TO_VARNA_none : ∀ {r : ℕ}, ¬ validR r → RASHI_TO_VARNA r = none := by
  intro r h
  match r with
  | 0 => rfl
  | 1 => exact absurd (by decide) h
  | 2 => exact absurd (by decide) h
  | 3 => exact absurd (by decide) h
  | 4 => exact absurd (by decide) h
  | 5 => exact absurd (by decide) h
  | 6 => exact absurd (by decide) h
  | 7 => exact absurd (by decide) h
  | 8 => exact absurd (by decide) h
  | 9 => exact absurd (by decide) h
  | 10 => exact absurd (by decide) h
  | 11 => exact absurd (by decide) h
  | 12 => exact absurd (by decide) h
  | (m + 13) => rfl

/-- An asterism outside 1–27 misses every key of `NAKSHATRA_TO_YONI`. -/
lemma NAKSHATRA_TO_YONI_none : ∀ {n : ℕ}, ¬ validN n → NAKSHATRA_TO_YONI n = none := by
  intro n h
  match n with
  | 0 => rfl
  | (m + 28) => rfl
  | 1 => exact absurd (by decide) h
  | 2 => exact absurd (by decide) h
  | 3 => exact absurd (by decide) h
  | 4 => exact absurd (by decide) h
  | 5 => exact absurd (by decide) h
  | 6 => exact absurd (by decide) h
  | 7 => exact absurd (by decide) h
  | 8 => exact absurd (by decide) h
  | 9 => exact absurd (by decide) h
  | 10 => exact absurd (by decide) h
  | 11 => exact absurd (by decide) h
  | 12 => exact absurd (by decide) h
  | 13 => exact absurd (by decide) h
  | 14 => exact absurd (by decide) h
  | 15 => exact absurd (by decide) h
  | 16 => exact absurd (by decide) h
  | 17 => exact absurd (by decide) h
  | 18 => exact absurd (by decide) h
  | 19 => exact absurd (by decide) h
  | 20 => exact absurd (by decide) h
  | 21 => exact absurd (by decide) h
  | 22 => exact absurd (by decide) h
  | 23 => exact absurd (by decide) h
  | 24 => exact absurd (by decide) h
  | 25 => exact absurd (by decide) h
  | 26 => exact absurd (by decide) h
  | 27 => exact absurd (by decide) h

/-- An out-of-range first sign makes the Varna scorer fail (Python `KeyError`). -/
lemma varna_score?_none_left {r1 r2 : ℕ} (h : ¬ validR r1) :
    varna_score? r1 r2 = none := by
  unfold varna_score?
  rw [RASHI_TO_VARNA_none h]
  rfl

/-- An out-of-range second sign makes the Varna scorer fail. -/
lemma varna_score?_none_right {r1 r2 : ℕ} (h : ¬ validR r2) :
    varna_score? r1 r2 = none := by
  unfold varna_score?
  cases hx : RASHI_TO_VARNA r1 with
  | none => rfl
  | some v =>
    rw [RASHI_TO_VARNA_none h]
    rfl

/-- An out-of-range first asterism makes the Yoni scorer fail. -/
lemma yoni_score?_none_left {n1 n2 : ℕ} (h : ¬ validN n1) :
    yoni_score? n1 n2 = none := by
  unfold yoni_score?
  rw [NAKSHATRA_TO_YONI_none h]
  rfl

/-- An out-of-range second asterism makes the Yoni scorer fail. -/
lemma yoni_score?_none_right {n1 n2 : ℕ} (h : ¬ validN n2) :
    yoni_score? n1 n2 = none := by
  unfold yoni_score?
  cases hx : NAKSHATRA_TO_YONI n1 with
  | none => rfl
  | some y =>
    rw [NAKSHATRA_TO_YONI_none h]
    rfl


/-! ### Claims -/

/-- Claim C5: every pair of identical valid profiles, scored in the Romantic
shape (`compatibility_ashtakoota` with the profile in both slots — either
orientation is literally the same call), yields Varna=1, Vashya=2, Tara=3,
Yoni=4, Maitri=5, Gana=6, Bhakoot=7, Nadi=0, total 28, and both
cancellation flags true. -/
theorem identical_profiles_score (r n p : ℕ) (hr : validR r) (hn : validN n)
    (hp : 1 ≤ p ∧ p ≤ 4) :
    (compatibility_ashtakoota r n p r n p).scores = ⟨1, 2, 3, 4, 5, 6, 7, 0⟩ ∧
    (compatibility_ashtakoota r n p r n p).total = 28 ∧
    (compatibility_ashtakoota r n p r n p).dosha_cancellation = ⟨true, true⟩ := by
  obtain ⟨hr1, hr2⟩ := hr
  obtain ⟨hn1, hn2⟩ := hn
  rw [compatibility_ashtakoota_eq p p ⟨hr1, hr2⟩ ⟨hn1, hn2⟩ ⟨hr1, hr2⟩ ⟨hn1, hn2⟩]
  have hs : mkScores r n r n = ⟨1, 2, 3, 4, 5, 6, 7, 0⟩ := by
    unfold mkScores
    rw [varna_diag r (by omega) hr1, vashya_diag r (by omega) hr1,
        tara_diag n (by omega) hn1, yoni_diag n (by omega) hn1,
        maitri_diag r (by omega) hr1, gana_diag n (by omega) hn1,
        bhakoot_diag r (by omega) hr1, nadi_diag n (by omega) hn1]
  rw [hs]
  refine ⟨rfl, by norm_num [Scores.total], ?_⟩
  show (⟨nadi_dosha_cancel r n r n, bhakoot_dosha_cancel r r⟩ : DoshaCancellation) = ⟨true, true⟩
  unfold nadi_dosha_cancel bhakoot_dosha_cancel
  simp

/-- Claim C5 witness: the identical profile (sign 5, asterism 10, pada 2). -/
theorem identical_profiles_score_witness :
    (compatibility_ashtakoota 5 10 2 5 10 2).scores = ⟨1, 2, 3, 4, 5, 6, 7, 0⟩ ∧
    (compatibility_ashtakoota 5 10 2 5 10 2).total = 28 ∧
    (compatibility_ashtakoota 5 10 2 5 10 2).dosha_cancellation = ⟨true, true⟩ :=
  identical_profiles_score 5 10 2 (by decide) (by decide) (by decide)

/-- Claim C6: `tara_score` implements the spec's two-directional step-count
rule (`tara_spec`) and is unchanged when the two asterisms are swapped. -/
theorem tara_rule_and_symmetry : ∀ n1 < 28, ∀ n2 < 28, 1 ≤ n1 → 1 ≤ n2 →
    tara_score n1 n2 = tara_spec n1 n2 ∧ tara_score n1 n2 = tara_score n2 n1 := by
  decide

/-- Claim C6 witness at asterisms 5 and 9. -/
theorem tara_rule_and_symmetry_witness :
    tara_score 5 9 = tara_spec 5 9 ∧ tara_score 5 9 = tara_score 9 5 :=
  tara_rule_and_symmetry 5 (by decide) 9 (by decide) (by decide) (by decide)

/-- Claim C7: on valid profiles the result's `nadi` flag is true iff the signs
are equal or the asterisms are equal, the `bhakoot` flag is true iff the signs
are equal, and the scores and total of the result are exactly the pure scorer
outputs (`mkScores`) — the flags enter neither. -/
theorem dosha_flags_spec (br bn bp gr gn gp : ℕ) (hbr : validR br)
    (hbn : validN bn) (hgr : validR gr) (hgn : validN gn) :
    ((compatibility_ashtakoota br bn bp gr gn gp).dosha_cancellation.nadi = true ↔
       (br = gr ∨ bn = gn)) ∧
    ((compatibility_ashtakoota br bn bp gr gn gp).dosha_cancellation.bhakoot = true ↔
       br = gr) ∧
    (compatibility_ashtakoota br bn bp gr gn gp).scores = mkScores br bn gr gn ∧
    (compatibility_ashtakoota br bn bp gr gn gp).total = (mkScores br bn gr gn).total := by
  rw [compatibility_ashtakoota_eq bp gp hbr hbn hgr hgn]
  refine ⟨?_, ?_, rfl, rfl⟩
  · show nadi_dosha_cancel br bn gr gn = true ↔ (br = gr ∨ bn = gn)
    unfold nadi_dosha_cancel
    by_cases h1 : br = gr <;> by_cases h2 : bn = gn <;> simp [h1, h2]
  · show bhakoot_dosha_cancel br gr = true ↔ br = gr
    unfold bhakoot_dosha_cancel
    simp

/-- Claim C7 witness: profiles (2, 14) and (2, 20) share a sign only. -/
theorem dosha_flags_spec_witness :
    ((compatibility_ashtakoota 2 14 1 2 20 3).dosha_cancellation.nadi = true ↔
       ((2 : ℕ) = 2 ∨ (14 : ℕ) = 20)) ∧
    ((compatibility_ashtakoota 2 14 1 2 20 3).dosha_cancellation.bhakoot = true ↔
       (2 : ℕ) = 2) ∧
    (compatibility_ashtakoota 2 14 1 2 20 3).scores = mkScores 2 14 2 20 ∧
    (compatibility_ashtakoota 2 14 1 2 20 3).total = (mkScores 2 14 2 20).total :=
  dosha_flags_spec 2 14 1 2 20 3 (by decide) (by decide) (by decide) (by decide)

/-- Claim C2: heterosexual love (both genders among 'male'/'female' and
different) deterministically puts the male profile in the primary (boy) slot;
in every other case both orientations are scored and the first (user, other)
orientation is kept unless the swapped one has strictly higher total; a
Friendship report never takes the deterministic branch.  The last two
conjuncts show `compute_ashtakoota_raw` applies exactly this policy before the
(friendship-only) fold. -/
theorem role_resolution_policy (u o : Panchanga) (ug og : Option String)
    (ct : CompatibilityType) :
    (resolve_orientation u o (some "male") (some "female") .love = run_ak u o) ∧
    (resolve_orientation u o (some "female") (some "male") .love = run_ak o u) ∧
    (hetero_love ct ug og = false →
      ((run_ak u o).total ≥ (run_ak o u).total →
        resolve_orientation u o ug og ct = run_ak u o) ∧
      ((run_ak o u).total > (run_ak u o).total →
        resolve_orientation u o ug og ct = run_ak o u)) ∧
    (hetero_love .friendship ug og = false) ∧
    (compute_ashtakoota_raw u o ug og .love = resolve_orientation u o ug og .love) ∧
    (compute_ashtakoota_raw u o ug og .friendship =
      friendship_fold (resolve_orientation u o ug og .friendship)) := by
  refine ⟨rfl, rfl, ?_, rfl, rfl, rfl⟩
  intro h
  have hresolve : resolve_orientation u o ug og ct =
      if (run_ak u o).total ≥ (run_ak o u).total then run_ak u o else run_ak o u := by
    unfold resolve_orientation
    rw [h]
    rfl
  constructor
  · intro hge
    rw [hresolve, if_pos hge]
  · intro hgt
    rw [hresolve, if_neg (not_le.mpr hgt)]

/-- Claim C2 witness: both branches at concrete profiles — the deterministic
male-primary branch, and a tie (both orientations total 45/2) keeping the
first orientation. -/
theorem role_resolution_policy_witness :
    (resolve_orientation ⟨1, 1, 1⟩ ⟨2, 2, 1⟩ (some "male") (some "female") .love =
      run_ak ⟨1, 1, 1⟩ ⟨2, 2, 1⟩) ∧
    (resolve_orientation ⟨1, 1, 1⟩ ⟨2, 2, 1⟩ (some "other") (some "female") .love =
      run_ak ⟨1, 1, 1⟩ ⟨2, 2, 1⟩) :=
  ⟨(role_resolution_policy ⟨1, 1, 1⟩ ⟨2, 2, 1⟩ none none .love).1,
   ((role_resolution_policy ⟨1, 1, 1⟩ ⟨2, 2, 1⟩ (some "other") (some "female") .love).2.2.1
      (by decide)).1 (by decide)⟩


/-- Claim C3: the friendship transform — Bhakoot becomes
`min 7 (bhakoot + yoni)`, Yoni becomes 0, the Yoni note is replaced by the
folded-into-emotional-closeness text, and the total is recomputed as the sum
of the eight (one zeroed) scores; a Friendship report is exactly the folded
orientation result while a Romantic one is unfolded; the achievable ceiling
(`_calculate_max_score`, attached downstream in `app/routers/users.py`) is 32
for Friendship and 36 for Romantic; and the two documented fold examples
(Bhakoot 5 / Yoni 3 ↦ 7 / 0, Bhakoot 2 / Yoni 1 ↦ 3 / 0) hold. -/
theorem friendship_fold_spec :
    (∀ a : AKResult,
      (friendship_fold a).scores.bhakoot = min 7 (a.scores.bhakoot + a.scores.yoni) ∧
      (friendship_fold a).scores.yoni = 0 ∧
      (friendship_fold a).explanation.yoni =
        "Not applicable for friendship. Yoni folded under emotional closeness." ∧
      (friendship_fold a).total =
        (friendship_fold a).scores.varna + (friendship_fold a).scores.vashya +
        (friendship_fold a).scores.tara + (friendship_fold a).scores.yoni +
        (friendship_fold a).scores.maitri + (friendship_fold a).scores.gana +
        (friendship_fold a).scores.bhakoot + (friendship_fold a).scores.nadi) ∧
    calculate_max_score .friendship = 32 ∧
    calculate_max_score .love = 36 ∧
    (∀ u o ug og, compute_ashtakoota_raw u o ug og .friendship =
      friendship_fold (resolve_orientation u o ug og .friendship)) ∧
    (∀ u o ug og, compute_ashtakoota_raw u o ug og .love =
      resolve_orientation u o ug og .love) ∧
    (∀ a : AKResult, a.scores.bhakoot = 5 → a.scores.yoni = 3 →
      (friendship_fold a).scores.bhakoot = 7 ∧ (friendship_fold a).scores.yoni = 0) ∧
    (∀ a : AKResult, a.scores.bhakoot = 2 → a.scores.yoni = 1 →
      (friendship_fold a).scores.bhakoot = 3 ∧ (friendship_fold a).scores.yoni = 0) := by
  refine ⟨fun a => ⟨rfl, rfl, rfl, rfl⟩, rfl, rfl, fun u o ug og => rfl,
    fun u o ug og => rfl, ?_, ?_⟩
  · intro a hb hy
    refine ⟨?_, rfl⟩
    show min 7 (a.scores.bhakoot + a.scores.yoni) = 7
    rw [hb, hy]
    norm_num
  · intro a hb hy
    refine ⟨?_, rfl⟩
    show min 7 (a.scores.bhakoot + a.scores.yoni) = 3
    rw [hb, hy]
    norm_num

/-- Claim C3 witness: the two documented fold examples at concrete records. -/
theorem friendship_fold_spec_witness :
    (friendship_fold ⟨⟨1, 2, 3, 3, 5, 6, 5, 8⟩, 33, baseExplanation, ⟨false, false⟩⟩).scores.bhakoot
        = 7 ∧
    (friendship_fold ⟨⟨1, 2, 3, 1, 5, 6, 2, 8⟩, 28, baseExplanation, ⟨false, false⟩⟩).scores.bhakoot
        = 3 :=
  ⟨(friendship_fold_spec.2.2.2.2.2.1 _ rfl rfl).1,
   (friendship_fold_spec.2.2.2.2.2.2 _ rfl rfl).1⟩

/-- Claim C8 counterexample: Varna is order-SENSITIVE, contradicting the
claim's list of order-insensitive scorers — sign 4 (Brahmin) against sign 3
(Shudra) scores 1 one way and 0 the other. -/
theorem varna_order_sensitivity_counterexample :
    varna_score 4 3 = 1 ∧ varna_score 3 4 = 0 := by decide

/-- Claim C8 (amended): exactly three scorers — Varna, Maitri, Gana — are
order-sensitive (witnessed at concrete pairs), and the other five — Vashya,
Tara, Yoni, Bhakoot, Nadi — are order-insensitive on every valid pair (the
Vashya special table and the Bhakoot matrix are both symmetric). -/
theorem order_sensitivity_partition :
    (varna_score 4 3 ≠ varna_score 3 4) ∧
    (maitri_score 4 3 ≠ maitri_score 3 4) ∧
    (gana_score 1 3 ≠ gana_score 3 1) ∧
    (∀ r1 < 13, ∀ r2 < 13, 1 ≤ r1 → 1 ≤ r2 →
      vashya_score r1 r2 = vashya_score r2 r1 ∧
      bhakoot_score r1 r2 = bhakoot_score r2 r1) ∧
    (∀ n1 < 28, ∀ n2 < 28, 1 ≤ n1 → 1 ≤ n2 →
      tara_score n1 n2 = tara_score n2 n1 ∧
      yoni_score n1 n2 = yoni_score n2 n1 ∧
      nadi_score n1 n2 = nadi_score n2 n1) := by
  refine ⟨by decide, by decide, by decide, ?_, ?_⟩
  · intro r1 h1 r2 h2 a1 a2
    exact ⟨vashya_symm r1 h1 r2 h2 a1 a2, bhakoot_symm r1 h1 r2 h2 a1 a2⟩
  · intro n1 h1 n2 h2 a1 a2
    exact ⟨tara_symm n1 h1 n2 h2, yoni_symm n1 h1 n2 h2 a1 a2,
      nadi_symm n1 h1 n2 h2 a1 a2⟩

/-- Claim C8 witness: symmetry instances at concrete sign and asterism pairs. -/
theorem order_sensitivity_partition_witness :
    (vashya_score 3 9 = vashya_score 9 3 ∧ bhakoot_score 3 9 = bhakoot_score 9 3) ∧
    (tara_score 4 17 = tara_score 17 4 ∧ yoni_score 4 17 = yoni_score 17 4 ∧
      nadi_score 4 17 = nadi_score 17 4) :=
  ⟨order_sensitivity_partition.2.2.2.1 3 (by decide) 9 (by decide) (by decide) (by decide),
   order_sensitivity_partition.2.2.2.2 4 (by decide) 17 (by decide) (by decide) (by decide)⟩

/-- Claim C9 counterexample: asterism 1 is Divine (Deva) and asterism 3 is
Fiend (Rakshasa); scoring with the Divine profile primary (boy) and the Fiend
profile secondary (girl) yields Gana = 1, not the claimed 0. -/
theorem gana_primary_divine_counterexample :
    NAKSHATRA_TO_GANA 1 = some Gana.Deva ∧
    NAKSHATRA_TO_GANA 3 = some Gana.Rakshasa ∧
    (compatibility_ashtakoota 1 1 1 1 3 1).scores.gana = 1 := by decide

/-- Claim C9 (amended): the Gana factor consults the ordered 3×3 table with
the SECONDARY's (girl's) temperament as the first coordinate — the table entry
Divine→Fiend is 0 and Fiend→Divine is 1, so a (primary Divine, secondary
Fiend) pairing scores 1 and the swapped orientation scores 0; the two
orientations always differ on such a pair. -/
theorem gana_table_orientation :
    (ganaScoringTable .Deva .Rakshasa = 0 ∧ ganaScoringTable .Rakshasa .Deva = 1) ∧
    (∀ br bn bp gr gn gp : ℕ, validR br → validN bn → validR gr → validN gn →
      (compatibility_ashtakoota br bn bp gr gn gp).scores.gana = gana_score gn bn) ∧
    (∀ bn < 28, ∀ gn < 28, 1 ≤ bn → 1 ≤ gn →
      NAKSHATRA_TO_GANA bn = some .Deva → NAKSHATRA_TO_GANA gn = some .Rakshasa →
      gana_score gn bn = 1 ∧ gana_score bn gn = 0 ∧ gana_score gn bn ≠ gana_score bn gn) := by
  refine ⟨⟨rfl, rfl⟩, ?_, by decide⟩
  intro br bn bp gr gn gp hbr hbn hgr hgn
  rw [compatibility_ashtakoota_eq bp gp hbr hbn hgr hgn]
  rfl

/-- Claim C9 witness: the amended statement at asterisms 1 (Deva) and 3
(Rakshasa). -/
theorem gana_table_orientation_witness :
    gana_score 3 1 = 1 ∧ gana_score 1 3 = 0 ∧ gana_score 3 1 ≠ gana_score 1 3 :=
  gana_table_orientation.2.2 1 (by decide) 3 (by decide) (by decide) (by decide) rfl rfl

/-- Claim C10: the mapping spellings 'Ashwa', 'Shwan', 'Vanara' occur in none
of the three classification pair lists (which use 'Ashva', 'Shvana', 'Vana'),
and consequently every cross-class asterism pair involving one of those three
classes scores the neutral Yoni default 2. -/
theorem yoni_spelling_fallthrough :
    (∀ p ∈ FRIENDLY_PAIRS,
      p.1 ∉ (["Ashwa", "Shwan", "Vanara"] : List String) ∧
      p.2 ∉ (["Ashwa", "Shwan", "Vanara"] : List String)) ∧
    (∀ p ∈ ENEMY_PAIRS,
      p.1 ∉ (["Ashwa", "Shwan", "Vanara"] : List String) ∧
      p.2 ∉ (["Ashwa", "Shwan", "Vanara"] : List String)) ∧
    (∀ p ∈ HIGHLY_INIMICAL_PAIRS,
      p.1 ∉ (["Ashwa", "Shwan", "Vanara"] : List String) ∧
      p.2 ∉ (["Ashwa", "Shwan", "Vanara"] : List String)) ∧
    (∀ n1 < 28, ∀ n2 < 28, 1 ≤ n1 → 1 ≤ n2 →
      NAKSHATRA_TO_YONI n1 ≠ NAKSHATRA_TO_YONI n2 →
      (NAKSHATRA_TO_YONI n1 ∈ ([some "Ashwa", some "Shwan", some "Vanara"] : List (Option String)) ∨
       NAKSHATRA_TO_YONI n2 ∈ ([some "Ashwa", some "Shwan", some "Vanara"] : List (Option String))) →
      yoni_score n1 n2 = 2) := by
  refine ⟨by decide, by decide, by decide, by decide⟩

/-- Claim C10 witness: asterism 1 (class 'Ashwa') against asterism 2 (class
'Gaja') falls through to the neutral score 2. -/
theorem yoni_spelling_fallthrough_witness : yoni_score 1 2 = 2 :=
  yoni_spelling_fallthrough.2.2.2 1 (by decide) 2 (by decide) (by decide) (by decide)
    (by decide) (by decide)


/-- All eight factor ranges and the total's recomputation for a single
oriented `run_ak` evaluation on valid profiles. -/
lemma run_ak_props (b g : Panchanga) (hbr : validR b.moon_rashi)
    (hbn : validN b.nakshatra) (hgr : validR g.moon_rashi)
    (hgn : validN g.nakshatra) :
    ((run_ak b g).scores.varna = 0 ∨ (run_ak b g).scores.varna = 1) ∧
    ((run_ak b g).scores.vashya = 1 ∨ (run_ak b g).scores.vashya = 2) ∧
    ((run_ak b g).scores.tara = 0 ∨ (run_ak b g).scores.tara = 3 / 2 ∨
      (run_ak b g).scores.tara = 3) ∧
    ((run_ak b g).scores.yoni = 0 ∨ (run_ak b g).scores.yoni = 1 ∨
      (run_ak b g).scores.yoni = 2 ∨ (run_ak b g).scores.yoni = 3 ∨
      (run_ak b g).scores.yoni = 4) ∧
    ((run_ak b g).scores.maitri = 0 ∨ (run_ak b g).scores.maitri = 1 ∨
      (run_ak b g).scores.maitri = 3 ∨ (run_ak b g).scores.maitri = 4 ∨
      (run_ak b g).scores.maitri = 5) ∧
    ((run_ak b g).scores.gana = 0 ∨ (run_ak b g).scores.gana = 1 ∨
      (run_ak b g).scores.gana = 5 ∨ (run_ak b g).scores.gana = 6) ∧
    ((run_ak b g).scores.bhakoot = 0 ∨ (run_ak b g).scores.bhakoot = 7) ∧
    ((run_ak b g).scores.nadi = 0 ∨ (run_ak b g).scores.nadi = 8) ∧
    (run_ak b g).total =
      (run_ak b g).scores.varna + (run_ak b g).scores.vashya +
      (run_ak b g).scores.tara + (run_ak b g).scores.yoni +
      (run_ak b g).scores.maitri + (run_ak b g).scores.gana +
      (run_ak b g).scores.bhakoot + (run_ak b g).scores.nadi := by
  obtain ⟨hbr1, hbr2⟩ := hbr
  obtain ⟨hbn1, hbn2⟩ := hbn
  obtain ⟨hgr1, hgr2⟩ := hgr
  obtain ⟨hgn1, hgn2⟩ := hgn
  unfold run_ak
  rw [compatibility_ashtakoota_eq b.pada g.pada ⟨hbr1, hbr2⟩ ⟨hbn1, hbn2⟩
    ⟨hgr1, hgr2⟩ ⟨hgn1, hgn2⟩]
  exact ⟨varna_range _ (by omega) _ (by omega) hbr1 hgr1,
    vashya_range _ (by omega) _ (by omega) hbr1 hgr1,
    tara_range _ (by omega) _ (by omega),
    yoni_range _ (by omega) _ (by omega) hbn1 hgn1,
    maitri_range _ (by omega) _ (by omega) hbr1 hgr1,
    gana_range _ (by omega) _ (by omega) hgn1 hbn1,
    bhakoot_range _ (by omega) _ (by omega) hbr1 hgr1,
    nadi_range _ (by omega) _ (by omega) hbn1 hgn1, rfl⟩

/-- Factor ranges entail the Romantic total bounds `0 ≤ total ≤ 36`. -/
lemma total_bounds_of_ranges (A : AKResult)
    (h1 : A.scores.varna = 0 ∨ A.scores.varna = 1)
    (h2 : A.scores.vashya = 1 ∨ A.scores.vashya = 2)
    (h3 : A.scores.tara = 0 ∨ A.scores.tara = 3 / 2 ∨ A.scores.tara = 3)
    (h4 : A.scores.yoni = 0 ∨ A.scores.yoni = 1 ∨ A.scores.yoni = 2 ∨
      A.scores.yoni = 3 ∨ A.scores.yoni = 4)
    (h5 : A.scores.maitri = 0 ∨ A.scores.maitri = 1 ∨ A.scores.maitri = 3 ∨
      A.scores.maitri = 4 ∨ A.scores.maitri = 5)
    (h6 : A.scores.gana = 0 ∨ A.scores.gana = 1 ∨ A.scores.gana = 5 ∨
      A.scores.gana = 6)
    (h7 : A.scores.bhakoot = 0 ∨ A.scores.bhakoot = 7)
    (h8 : A.scores.nadi = 0 ∨ A.scores.nadi = 8)
    (ht : A.total =
      A.scores.varna + A.scores.vashya + A.scores.tara + A.scores.yoni +
      A.scores.maitri + A.scores.gana + A.scores.bhakoot + A.scores.nadi) :
    0 ≤ A.total ∧ A.total ≤ 36 := by
  have b1 : 0 ≤ A.scores.varna ∧ A.scores.varna ≤ 1 := by
    rcases h1 with h | h <;> rw [h] <;> norm_num
  have b2 : 0 ≤ A.scores.vashya ∧ A.scores.vashya ≤ 2 := by
    rcases h2 with h | h <;> rw [h] <;> norm_num
  have b3 : 0 ≤ A.scores.tara ∧ A.scores.tara ≤ 3 := by
    rcases h3 with h | h | h <;> rw [h] <;> norm_num
  have b4 : 0 ≤ A.scores.yoni ∧ A.scores.yoni ≤ 4 := by
    rcases h4 with h | h | h | h | h <;> rw [h] <;> norm_num
  have b5 : 0 ≤ A.scores.maitri ∧ A.scores.maitri ≤ 5 := by
    rcases h5 with h | h | h | h | h <;> rw [h] <;> norm_num
  have b6 : 0 ≤ A.scores.gana ∧ A.scores.gana ≤ 6 := by
    rcases h6 with h | h | h | h <;> rw [h] <;> norm_num
  have b7 : 0 ≤ A.scores.bhakoot ∧ A.scores.bhakoot ≤ 7 := by
    rcases h7 with h | h <;> rw [h] <;> norm_num
  have b8 : 0 ≤ A.scores.nadi ∧ A.scores.nadi ≤ 8 := by
    rcases h8 with h | h <;> rw [h] <;> norm_num
  rw [ht]
  constructor <;>
    linarith [b1.1, b1.2, b2.1, b2.2, b3.1, b3.2, b4.1, b4.2, b5.1, b5.2,
      b6.1, b6.2, b7.1, b7.2, b8.1, b8.2]

/-- Factor ranges of a folded (Friendship) result: Yoni is zeroed, Bhakoot is
the capped fold `min 7 (bhakoot + yoni)` — landing in {0,1,2,3,4,7} — the six
other factors are untouched, and the recomputed total satisfies
`0 ≤ total ≤ 32`. -/
lemma fold_props (A : AKResult)
    (h1 : A.scores.varna = 0 ∨ A.scores.varna = 1)
    (h2 : A.scores.vashya = 1 ∨ A.scores.vashya = 2)
    (h3 : A.scores.tara = 0 ∨ A.scores.tara = 3 / 2 ∨ A.scores.tara = 3)
    (h4 : A.scores.yoni = 0 ∨ A.scores.yoni = 1 ∨ A.scores.yoni = 2 ∨
      A.scores.yoni = 3 ∨ A.scores.yoni = 4)
    (h5 : A.scores.maitri = 0 ∨ A.scores.maitri = 1 ∨ A.scores.maitri = 3 ∨
      A.scores.maitri = 4 ∨ A.scores.maitri = 5)
    (h6 : A.scores.gana = 0 ∨ A.scores.gana = 1 ∨ A.scores.gana = 5 ∨
      A.scores.gana = 6)
    (h7 : A.scores.bhakoot = 0 ∨ A.scores.bhakoot = 7)
    (h8 : A.scores.nadi = 0 ∨ A.scores.nadi = 8) :
    ((friendship_fold A).scores.varna = 0 ∨ (friendship_fold A).scores.varna = 1) ∧
    ((friendship_fold A).scores.vashya = 1 ∨ (friendship_fold A).scores.vashya = 2) ∧
    ((friendship_fold A).scores.tara = 0 ∨ (friendship_fold A).scores.tara = 3 / 2 ∨
      (friendship_fold A).scores.tara = 3) ∧
    (friendship_fold A).scores.yoni = 0 ∧
    ((friendship_fold A).scores.maitri = 0 ∨ (friendship_fold A).scores.maitri = 1 ∨
      (friendship_fold A).scores.maitri = 3 ∨ (friendship_fold A).scores.maitri = 4 ∨
      (friendship_fold A).scores.maitri = 5) ∧
    ((friendship_fold A).scores.gana = 0 ∨ (friendship_fold A).scores.gana = 1 ∨
      (friendship_fold A).scores.gana = 5 ∨ (friendship_fold A).scores.gana = 6) ∧
    ((friendship_fold A).scores.bhakoot = 0 ∨ (friendship_fold A).scores.bhakoot = 1 ∨
      (friendship_fold A).scores.bhakoot = 2 ∨ (friendship_fold A).scores.bhakoot = 3 ∨
      (friendship_fold A).scores.bhakoot = 4 ∨ (friendship_fold A).scores.bhakoot = 7) ∧
    ((friendship_fold A).scores.nadi = 0 ∨ (friendship_fold A).scores.nadi = 8) ∧
    0 ≤ (friendship_fold A).total ∧ (friendship_fold A).total ≤ 32 := by
  have hbf : (friendship_fold A).scores.bhakoot =
      min 7 (A.scores.bhakoot + A.scores.yoni) := rfl
  have htf : (friendship_fold A).total =
      A.scores.varna + A.scores.vashya + A.scores.tara + 0 + A.scores.maitri +
      A.scores.gana + min 7 (A.scores.bhakoot + A.scores.yoni) + A.scores.nadi := rfl
  have b1 : 0 ≤ A.scores.varna ∧ A.scores.varna ≤ 1 := by
    rcases h1 with h | h <;> rw [h] <;> norm_num
  have b2 : 0 ≤ A.scores.vashya ∧ A.scores.vashya ≤ 2 := by
    rcases h2 with h | h <;> rw [h] <;> norm_num
  have b3 : 0 ≤ A.scores.tara ∧ A.scores.tara ≤ 3 := by
    rcases h3 with h | h | h <;> rw [h] <;> norm_num
  have b4 : 0 ≤ A.scores.yoni ∧ A.scores.yoni ≤ 4 := by
    rcases h4 with h | h | h | h | h <;> rw [h] <;> norm_num
  have b5 : 0 ≤ A.scores.maitri ∧ A.scores.maitri ≤ 5 := by
    rcases h5 with h | h | h | h | h <;> rw [h] <;> norm_num
  have b6 : 0 ≤ A.scores.gana ∧ A.scores.gana ≤ 6 := by
    rcases h6 with h | h | h | h <;> rw [h] <;> norm_num
  have b7 : 0 ≤ A.scores.bhakoot ∧ A.scores.bhakoot ≤ 7 := by
    rcases h7 with h | h <;> rw [h] <;> norm_num
  have b8 : 0 ≤ A.scores.nadi ∧ A.scores.nadi ≤ 8 := by
    rcases h8 with h | h <;> rw [h] <;> norm_num
  have hmin_le : min 7 (A.scores.bhakoot + A.scores.yoni) ≤ 7 := min_le_left _ _
  have hmin_ge : 0 ≤ min 7 (A.scores.bhakoot + A.scores.yoni) :=
    le_min (by norm_num) (by linarith [b7.1, b4.1])
  refine ⟨h1, h2, h3, rfl, h5, h6, ?_, h8, ?_, ?_⟩
  · rw [hbf]
    rcases h7 with hb | hb <;> rcases h4 with hy | hy | hy | hy | hy <;>
      rw [hb, hy] <;> norm_num [min_def]
  · rw [htf]
    linarith [b1.1, b2.1, b3.1, b5.1, b6.1, b8.1, hmin_ge]
  · rw [htf]
    linarith [b1.2, b2.2, b3.2, b5.2, b6.2, b8.2, hmin_le]

/-- Claim C1 counterexample: under a Friendship report the folded Bhakoot
score can be 2, which is in neither the documented Bhakoot set {0, 7} nor any
other factor's set containing it — profiles (sign 1, asterism 1) and (sign 2,
asterism 2) tie at 45/2 in both orientations, keep the first, and fold
Bhakoot 0 + Yoni 2 into 2. -/
theorem factor_ranges_friendship_counterexample :
    (compute_ashtakoota_raw ⟨1, 1, 1⟩ ⟨2, 2, 1⟩ none none .friendship).scores.bhakoot = 2 ∧
    ¬ ((2 : ℚ) = 0 ∨ (2 : ℚ) = 7) := by
  constructor
  · decide
  · norm_num

/-- Claim C1 (amended): for valid profiles, a Romantic result's factors lie in
the documented sets (Varna {0,1}, Vashya {1,2}, Tara {0,1.5,3},
Yoni {0,...,4}, Maitri {0,1,3,4,5}, Gana {0,1,5,6}, Bhakoot {0,7},
Nadi {0,8}) with `0 ≤ total ≤ 36` (= `_calculate_max_score` for love); a
Friendship result keeps those sets for the six unfolded factors but has
Yoni = 0 and Bhakoot ∈ {0,1,2,3,4,7} (the capped fold), with
`0 ≤ total ≤ 32` (= `_calculate_max_score` for friendship). -/
theorem factor_ranges_and_total_bounds (u o : Panchanga) (ug og : Option String)
    (hur : validR u.moon_rashi) (hun : validN u.nakshatra)
    (hor : validR o.moon_rashi) (hon : validN o.nakshatra) :
    ((compute_ashtakoota_raw u o ug og .love).scores.varna = 0 ∨
      (compute_ashtakoota_raw u o ug og .love).scores.varna = 1) ∧
    ((compute_ashtakoota_raw u o ug og .love).scores.vashya = 1 ∨
      (compute_ashtakoota_raw u o ug og .love).scores.vashya = 2) ∧
    ((compute_ashtakoota_raw u o ug og .love).scores.tara = 0 ∨
      (compute_ashtakoota_raw u o ug og .love).scores.tara = 3 / 2 ∨
      (compute_ashtakoota_raw u o ug og .love).scores.tara = 3) ∧
    ((compute_ashtakoota_raw u o ug og .love).scores.yoni = 0 ∨
      (compute_ashtakoota_raw u o ug og .love).scores.yoni = 1 ∨
      (compute_ashtakoota_raw u o ug og .love).scores.yoni = 2 ∨
      (compute_ashtakoota_raw u o ug og .love).scores.yoni = 3 ∨
      (compute_ashtakoota_raw u o ug og .love).scores.yoni = 4) ∧
    ((compute_ashtakoota_raw u o ug og .love).scores.maitri = 0 ∨
      (compute_ashtakoota_raw u o ug og .love).scores.maitri = 1 ∨
      (compute_ashtakoota_raw u o ug og .love).scores.maitri = 3 ∨
      (compute_ashtakoota_raw u o ug og .love).scores.maitri = 4 ∨
      (compute_ashtakoota_raw u o ug og .love).scores.maitri = 5) ∧
    ((compute_ashtakoota_raw u o ug og .love).scores.gana = 0 ∨
      (compute_ashtakoota_raw u o ug og .love).scores.gana = 1 ∨
      (compute_ashtakoota_raw u o ug og .love).scores.gana = 5 ∨
      (compute_ashtakoota_raw u o ug og .love).scores.gana = 6) ∧
    ((compute_ashtakoota_raw u o ug og .love).scores.bhakoot = 0 ∨
      (compute_ashtakoota_raw u o ug og .love).scores.bhakoot = 7) ∧
    ((compute_ashtakoota_raw u o ug og .love).scores.nadi = 0 ∨
      (compute_ashtakoota_raw u o ug og .love).scores.nadi = 8) ∧
    0 ≤ (compute_ashtakoota_raw u o ug og .love).total ∧
    (compute_ashtakoota_raw u o ug og .love).total ≤
      (calculate_max_score CompatibilityType.love : ℚ) ∧
    ((compute_ashtakoota_raw u o ug og .friendship).scores.varna = 0 ∨
      (compute_ashtakoota_raw u o ug og .friendship).scores.varna = 1) ∧
    ((compute_ashtakoota_raw u o ug og .friendship).scores.vashya = 1 ∨
      (compute_ashtakoota_raw u o ug og .friendship).scores.vashya = 2) ∧
    ((compute_ashtakoota_raw u o ug og .friendship).scores.tara = 0 ∨
      (compute_ashtakoota_raw u o ug og .friendship).scores.tara = 3 / 2 ∨
      (compute_ashtakoota_raw u o ug og .friendship).scores.tara = 3) ∧
    (compute_ashtakoota_raw u o ug og .friendship).scores.yoni = 0 ∧
    ((compute_ashtakoota_raw u o ug og .friendship).scores.maitri = 0 ∨
      (compute_ashtakoota_raw u o ug og .friendship).scores.maitri = 1 ∨
      (compute_ashtakoota_raw u o ug og .friendship).scores.maitri = 3 ∨
      (compute_ashtakoota_raw u o ug og .friendship).scores.maitri = 4 ∨
      (compute_ashtakoota_raw u o ug og .friendship).scores.maitri = 5) ∧
    ((compute_ashtakoota_raw u o ug og .friendship).scores.gana = 0 ∨
      (compute_ashtakoota_raw u o ug og .friendship).scores.gana = 1 ∨
      (compute_ashtakoota_raw u o ug og .friendship).scores.gana = 5 ∨
      (compute_ashtakoota_raw u o ug og .friendship).scores.gana = 6) ∧
    ((compute_ashtakoota_raw u o ug og .friendship).scores.bhakoot = 0 ∨
      (compute_ashtakoota_raw u o ug og .friendship).scores.bhakoot = 1 ∨
      (compute_ashtakoota_raw u o ug og .friendship).scores.bhakoot = 2 ∨
      (compute_ashtakoota_raw u o ug og .friendship).scores.bhakoot = 3 ∨
      (compute_ashtakoota_raw u o ug og .friendship).scores.bhakoot = 4 ∨
      (compute_ashtakoota_raw u o ug og .friendship).scores.bhakoot = 7) ∧
    ((compute_ashtakoota_raw u o ug og .friendship).scores.nadi = 0 ∨
      (compute_ashtakoota_raw u o ug og .friendship).scores.nadi = 8) ∧
    0 ≤ (compute_ashtakoota_raw u o ug og .friendship).total ∧
    (compute_ashtakoota_raw u o ug og .friendship).total ≤
      (calculate_max_score CompatibilityType.friendship : ℚ) := by
  have hml : (calculate_max_score CompatibilityType.love : ℚ) = 36 := by
    norm_num [calculate_max_score]
  have hmf : (calculate_max_score CompatibilityType.friendship : ℚ) = 32 := by
    norm_num [calculate_max_score]
  have hwl : compute_ashtakoota_raw u o ug og .love =
      resolve_orientation u o ug og .love := rfl
  have hwf : compute_ashtakoota_raw u o ug og .friendship =
      friendship_fold (resolve_orientation u o ug og .friendship) := rfl
  have hlove : ∃ A, resolve_orientation u o ug og .love = A ∧
      (A.scores.varna = 0 ∨ A.scores.varna = 1) ∧
      (A.scores.vashya = 1 ∨ A.scores.vashya = 2) ∧
      (A.scores.tara = 0 ∨ A.scores.tara = 3 / 2 ∨ A.scores.tara = 3) ∧
      (A.scores.yoni = 0 ∨ A.scores.yoni = 1 ∨ A.scores.yoni = 2 ∨
        A.scores.yoni = 3 ∨ A.scores.yoni = 4) ∧
      (A.scores.maitri = 0 ∨ A.scores.maitri = 1 ∨ A.scores.maitri = 3 ∨
        A.scores.maitri = 4 ∨ A.scores.maitri = 5) ∧
      (A.scores.gana = 0 ∨ A.scores.gana = 1 ∨ A.scores.gana = 5 ∨
        A.scores.gana = 6) ∧
      (A.scores.bhakoot = 0 ∨ A.scores.bhakoot = 7) ∧
      (A.scores.nadi = 0 ∨ A.scores.nadi = 8) ∧
      A.total = A.scores.varna + A.scores.vashya + A.scores.tara +
        A.scores.yoni + A.scores.maitri + A.scores.gana + A.scores.bhakoot +
        A.scores.nadi := by
    rcases resolve_orientation_cases u o ug og .love with h | h
    · exact ⟨run_ak u o, h, run_ak_props u o hur hun hor hon⟩
    · exact ⟨run_ak o u, h, run_ak_props o u hor hon hur hun⟩
  have hfriend : ∃ A, resolve_orientation u o ug og .friendship = A ∧
      (A.scores.varna = 0 ∨ A.scores.varna = 1) ∧
      (A.scores.vashya = 1 ∨ A.scores.vashya = 2) ∧
      (A.scores.tara = 0 ∨ A.scores.tara = 3 / 2 ∨ A.scores.tara = 3) ∧
      (A.scores.yoni = 0 ∨ A.scores.yoni = 1 ∨ A.scores.yoni = 2 ∨
        A.scores.yoni = 3 ∨ A.scores.yoni = 4) ∧
      (A.scores.maitri = 0 ∨ A.scores.maitri = 1 ∨ A.scores.maitri = 3 ∨
        A.scores.maitri = 4 ∨ A.scores.maitri = 5) ∧
      (A.scores.gana = 0 ∨ A.scores.gana = 1 ∨ A.scores.gana = 5 ∨
        A.scores.gana = 6) ∧
      (A.scores.bhakoot = 0 ∨ A.scores.bhakoot = 7) ∧
      (A.scores.nadi = 0 ∨ A.scores.nadi = 8) := by
    rcases resolve_orientation_cases u o ug og .friendship with h | h
    · obtain ⟨p1, p2, p3, p4, p5, p6, p7, p8, _⟩ := run_ak_props u o hur hun hor hon
      exact ⟨run_ak u o, h, p1, p2, p3, p4, p5, p6, p7, p8⟩
    · obtain ⟨p1, p2, p3, p4, p5, p6, p7, p8, _⟩ := run_ak_props o u hor hon hur hun
      exact ⟨run_ak o u, h, p1, p2, p3, p4, p5, p6, p7, p8⟩
  obtain ⟨A, hA, a1, a2, a3, a4, a5, a6, a7, a8, at'⟩ := hlove
  obtain ⟨B, hB, c1, c2, c3, c4, c5, c6, c7, c8⟩ := hfriend
  have hbounds := total_bounds_of_ranges A a1 a2 a3 a4 a5 a6 a7 a8 at'
  have hfold := fold_props B c1 c2 c3 c4 c5 c6 c7 c8
  rw [hwl, hwf, hA, hB, hml, hmf]
  exact ⟨a1, a2, a3, a4, a5, a6, a7, a8, hbounds.1, hbounds.2,
    hfold.1, hfold.2.1, hfold.2.2.1, hfold.2.2.2.1, hfold.2.2.2.2.1,
    hfold.2.2.2.2.2.1, hfold.2.2.2.2.2.2.1, hfold.2.2.2.2.2.2.2.1,
    hfold.2.2.2.2.2.2.2.2.1, hfold.2.2.2.2.2.2.2.2.2⟩

/-- Claim C1 witness: the amended bounds at concrete valid profiles. -/
theorem factor_ranges_and_total_bounds_witness :
    0 ≤ (compute_ashtakoota_raw ⟨3, 7, 2⟩ ⟨11, 22, 4⟩ (some "male") (some "female") .love).total ∧
    (compute_ashtakoota_raw ⟨3, 7, 2⟩ ⟨11, 22, 4⟩ (some "male") (some "female") .love).total ≤
      (calculate_max_score CompatibilityType.love : ℚ) ∧
    (compute_ashtakoota_raw ⟨3, 7, 2⟩ ⟨11, 22, 4⟩ (some "male") (some "female") .friendship).scores.yoni = 0 ∧
    (compute_ashtakoota_raw ⟨3, 7, 2⟩ ⟨11, 22, 4⟩ (some "male") (some "female") .friendship).total ≤
      (calculate_max_score CompatibilityType.friendship : ℚ) := by
  obtain h := factor_ranges_and_total_bounds ⟨3, 7, 2⟩ ⟨11, 22, 4⟩
    (some "male") (some "female") (by decide) (by decide) (by decide) (by decide)
  exact ⟨h.2.2.2.2.2.2.2.2.1, h.2.2.2.2.2.2.2.2.2.1,
    h.2.2.2.2.2.2.2.2.2.2.2.2.2.1, h.2.2.2.2.2.2.2.2.2.2.2.2.2.2.2.2.2.2.2⟩


/-- Claim C4 counterexample: an out-of-range subdivision (pada 5, domain 1–4)
does NOT make evaluation fail — the engine never validates or even reads the
pada arguments, so no `OutOfRangeInput` is raised before (or after) any table
lookup. -/
theorem no_out_of_range_input_counterexample :
    (compatibility_ashtakoota? 1 1 5 1 1 1).isSome = true := by decide

/-- Claim C4 (amended): there is no up-front `OutOfRangeInput` validation.
An out-of-range sign fails as a missing-key lookup inside the Varna scorer
(the first dict access), an out-of-range asterism fails inside the Yoni
scorer (Tara's modular arithmetic accepts anything), the subdivision is never
consulted so any value evaluates successfully, and the Bhakoot matrix lookup
silently defaults a missing sign pair to score 0 rather than failing. -/
theorem out_of_range_behavior :
    (∀ br bn bp gr gn gp : ℕ, ¬ validR br →
      compatibility_ashtakoota? br bn bp gr gn gp = none) ∧
    (∀ br bn bp gr gn gp : ℕ, ¬ validR gr →
      compatibility_ashtakoota? br bn bp gr gn gp = none) ∧
    (∀ br bn bp gr gn gp : ℕ, validR br → validR gr → ¬ validN bn →
      compatibility_ashtakoota? br bn bp gr gn gp = none) ∧
    (∀ br bn bp gr gn gp : ℕ, validR br → validR gr → validN bn → ¬ validN gn →
      compatibility_ashtakoota? br bn bp gr gn gp = none) ∧
    (∀ br bn bp gr gn gp : ℕ, validR br → validR gr → validN bn → validN gn →
      (compatibility_ashtakoota? br bn bp gr gn gp).isSome = true) ∧
    (∀ r1 r2 : ℕ, ¬ (1 ≤ r1 ∧ r1 ≤ 12 ∧ 1 ≤ r2 ∧ r2 ≤ 12) →
      bhakoot_score r1 r2 = 0) := by
  refine ⟨?_, ?_, ?_, ?_, ?_, ?_⟩
  · intro br bn bp gr gn gp h
    unfold compatibility_ashtakoota?
    rw [varna_score?_none_left h]
    rfl
  · intro br bn bp gr gn gp h
    unfold compatibility_ashtakoota?
    rw [varna_score?_none_right h]
    rfl
  · intro br bn bp gr gn gp hbr hgr h
    unfold compatibility_ashtakoota?
    rw [varna_score?_eq hbr hgr, vashya_score?_eq hbr hgr, yoni_score?_none_left h]
    rfl
  · intro br bn bp gr gn gp hbr hgr hbn h
    unfold compatibility_ashtakoota?
    rw [varna_score?_eq hbr hgr, vashya_score?_eq hbr hgr, yoni_score?_none_right h]
    rfl
  · intro br bn bp gr gn gp hbr hgr hbn hgn
    rw [compatibility_ashtakoota?_eq_some bp gp hbr hbn hgr hgn]
    rfl
  · intro r1 r2 h
    unfold bhakoot_score BHAKOOT_MATRIX
    rw [if_neg h]
    rfl

/-- Claim C4 witness: sign 13 and asterism 28 fail as missing keys, pada 99
evaluates successfully, and the Bhakoot default fires for sign 13. -/
theorem out_of_range_behavior_witness :
    compatibility_ashtakoota? 13 1 1 1 1 1 = none ∧
    compatibility_ashtakoota? 1 28 1 1 1 1 = none ∧
    (compatibility_ashtakoota? 1 1 99 1 1 42).isSome = true ∧
    bhakoot_score 13 1 = 0 :=
  ⟨out_of_range_behavior.1 13 1 1 1 1 1 (by decide),
   out_of_range_behavior.2.2.1 1 28 1 1 1 1 (by decide) (by decide) (by decide),
   out_of_range_behavior.2.2.2.2.1 1 1 99 1 1 42 (by decide) (by decide)
     (by decide) (by decide),
   out_of_range_behavior.2.2.2.2.2 13 1 (by decide)⟩

end Ashtakoota
